import Mathlib

/-!
Verification of the PDF ingestion-and-routing pipeline implemented in
`src/scraping/extract_and_classify.py`.

The embedding below translates each Python function of that file into a pure
Lean function.  External effects are made explicit:

* a `Document` carries the observable behaviour of the filesystem and of the
  external tools on that one source file (whether `fitz.open` succeeds and what
  pages it yields, whether the Ghostscript subprocess exits zero, whether
  `fitz.open` on the repaired copy succeeds, whether the `shutil.copy` into the
  error directory succeeds — the source wraps that copy in `try/except: pass`);
* an `Env` carries the run-wide external collaborators (which Ghostscript
  candidate names resolve when probed with `-v`, the zero-shot classification
  pipeline, and whether the two `easyocr.Reader(...)` construction sites
  succeed);
* the result of processing one document (`PdfResult`) records which artifacts
  exist afterwards and where, mirroring the moves/copies the code performs,
  plus instrumentation for the resource-sharing claims: how many recognition
  engines were constructed during the call and which engine instance served
  each `readtext` call.
-/

namespace ExtractClassify

/-- One page of a PDF: `text` is what `page.get_text()` returns (the digital
text layer, possibly empty), `frags` is the fragment list the recognition
engine's `reader.readtext(pix.tobytes(), detail=0, paragraph=True)` returns for
the page's raster. -/
structure Page where
  text : String
  frags : List String
deriving DecidableEq

/-- A source PDF together with the behaviour of the external world on it.
`pages = none` models `fitz.open(pdf_path)` raising; `gsExitOk = false` models
the Ghostscript invocation exiting non-zero (`subprocess.run(..., check=True)`
raising); `repairedPages = none` models `fitz.open(repaired_path)` raising;
`errorCopyOk = false` models `shutil.copy(pdf_path, error_dir/…)` raising (the
source guards exactly this call with `try/except: pass`). -/
structure Document where
  name : String
  pages : Option (List Page)
  gsExitOk : Bool
  repairedPages : Option (List Page)
  errorCopyOk : Bool
deriving DecidableEq

/-- Run-wide external collaborators.  `gsProbe c` is whether `subprocess.run([c,
"-v"], check=True)` succeeds; `cls text labels` is the zero-shot pipeline:
`none` when the model invocation raises, otherwise the ranked label list
`result["labels"]`; `mainReaderOk` is whether `easyocr.Reader(["hi","en"],
gpu=True)` in `main` constructs successfully; `fallbackReaderOk` is whether the
per-document fallback `easyocr.Reader(["hi","en"])` in `process_pdf`
constructs successfully. -/
structure Env where
  gsProbe : String → Bool
  cls : String → List String → Option (List String)
  mainReaderOk : Bool
  fallbackReaderOk : Bool

/-- Python strings are sequences of code points; Lean's `String` is the same
data behind a UTF-8 interface, so the embedding works on `String.data`.
`s.strip()` is falsy exactly when every character of `s` is whitespace. -/
def strippedEmpty (s : String) : Bool := s.data.all Char.isWhitespace

/-- `filename.lower()`. -/
def pyLower (s : String) : String := ⟨s.data.map Char.toLower⟩

/-- `s.endswith(t)`. -/
def pyEndsWith (s t : String) : Bool := t.data.isSuffixOf s.data

/-- `label.replace(" ", "_")` — a single-character pattern, so a character
map. -/
def underscoreLabel (label : String) : String :=
  ⟨label.data.map fun c => if c = ' ' then '_' else c⟩

/-- Python's `<` on strings: lexicographic comparison by code point. -/
def charsLt : List Char → List Char → Bool
  | [], [] => false
  | [], _ :: _ => true
  | _ :: _, [] => false
  | a :: as, b :: bs =>
      if a < b then true else if b < a then false else charsLt as bs

/-- Python's `<=` on strings, as the sort comparator: `a <= b ↔ ¬ (b < a)`. -/
def pyStrLe (a b : String) : Bool := !charsLt b.data a.data

/-- The closed label vocabulary `LABELS` of the source. -/
def LABELS : List String := ["static data", "dynamic data"]

/-- `classify_text`: blank input short-circuits to `"unknown"` without calling
the pipeline; otherwise the pipeline is invoked once and `result["labels"][0]`
is returned (`none` when the invocation raises or the ranked list is empty —
both raise in Python).  The second component counts pipeline invocations. -/
def classify_text (cls : String → List String → Option (List String))
    (text : String) : Option String × Nat :=
  if strippedEmpty text then (some "unknown", 0)
  else
    match cls text LABELS with
    | none => (none, 1)
    | some ranked => (ranked.head?, 1)

/-- `sum(1 for page in doc if page.get_text().strip())`: the number of pages
whose stripped text layer is non-empty. -/
def textPages (ps : List Page) : Nat :=
  (ps.filter fun p => !strippedEmpty p.text).length

/-- `is_digital`: false when the document cannot be opened; otherwise
`text_pages >= doc.page_count / 2`.  Python compares the integer count against
the float `page_count / 2`; for the page counts at hand this float is exact, so
the comparison is `2 * text_pages ≥ page_count`. -/
def is_digital (d : Document) : Bool :=
  match d.pages with
  | none => false
  | some ps => decide (ps.length ≤ 2 * textPages ps)

/-- The candidate executable names `gs_candidates` probed by
`ghostscript_repair`. -/
def gs_candidates : List String := ["gswin64c", "gswin32c", "gs"]

/-- The probing loop of `ghostscript_repair`: the first candidate whose `-v`
invocation succeeds, `none` when none resolves (the code then raises
`RuntimeError("Ghostscript not found. Please install it.")`). -/
def findGs (env : Env) : Option String :=
  gs_candidates.find? env.gsProbe

/-- `"-" * 80`, the separator written after each page. -/
def dashLine : String := String.mk (List.replicate 80 '-')

/-- The chunks `ocr_extract` writes for pages numbered from `i` (0-based):
per page, the three `txt_file.write(...)` arguments in order — the marker
`f"Page {page_num + 1}:\n"`, the space-joined fragments, and
`"\n" + "-" * 80 + "\n"`. -/
def ocr_writes_from : Nat → List Page → List String
  | _, [] => []
  | i, p :: ps =>
      ("Page " ++ toString (i + 1) ++ ":\n")
        :: String.intercalate " " p.frags
        :: ("\n" ++ dashLine ++ "\n")
        :: ocr_writes_from (i + 1) ps

/-- The full write sequence of `ocr_extract` over a document's pages. -/
def ocr_writes (ps : List Page) : List String := ocr_writes_from 0 ps

/-- The content of the text file `ocr_extract` produces: the concatenation of
the written chunks. -/
def ocr_write (ps : List Page) : String := String.join (ocr_writes ps)

/-- The observable result of `process_pdf` on one document.
`repairedUnrouted` / `ocrUnrouted`: an artifact is left at the stage's output
root, not yet moved into a label subdirectory; `repairedFiled` / `ocrFiled`:
the artifact was moved into the named label subdirectory; `quarantined`: a copy
of the original source landed in the error directory; `errored`: the `except`
branch ran; `readerCtors`: recognition engines constructed during this call;
`usedReader` / `readtextCalls`: which engine instance served the document and
each of its pages. -/
structure PdfResult where
  errored : Bool
  repairedUnrouted : Bool
  repairedFiled : Option String
  ocrUnrouted : Bool
  ocrFiled : Option String
  quarantined : Option Document
  readerCtors : Nat
  usedReader : Option Nat
  readtextCalls : List (Nat × Nat)
deriving DecidableEq

/-- The state before anything happened. -/
def initResult : PdfResult :=
  { errored := false, repairedUnrouted := false, repairedFiled := none,
    ocrUnrouted := false, ocrFiled := none, quarantined := none,
    readerCtors := 0, usedReader := none, readtextCalls := [] }

/-- The `except` branch of `process_pdf`: log, and when an error directory is
configured attempt `shutil.copy(pdf_path, error_dir/basename)`; a failure of
that copy is swallowed (`except Exception: pass`), leaving no quarantine
copy. -/
def exceptHandler (errCfg : Bool) (doc : Document) (r : PdfResult) : PdfResult :=
  { r with errored := true,
           quarantined := if errCfg && doc.errorCopyOk then some doc else none }

/-- State after `ghostscript_repair` wrote the repaired copy at the repaired
root (before routing). -/
def repairedPending : PdfResult :=
  { initResult with repairedUnrouted := true }

/-- The digital branch of `process_pdf`: probe for Ghostscript (raising when no
candidate resolves), run the repair subprocess, re-open the repaired copy,
newline-join its pages' text, classify, and move the repaired copy into
`repaired_dir/label.replace(" ", "_")`. -/
def processDigital (env : Env) (errCfg : Bool) (doc : Document) : PdfResult :=
  match findGs env with
  | none => exceptHandler errCfg doc initResult
  | some _ =>
    if doc.gsExitOk = false then exceptHandler errCfg doc initResult
    else
      match doc.repairedPages with
      | none => exceptHandler errCfg doc repairedPending
      | some rp =>
        match (classify_text env.cls (String.intercalate "\n" (rp.map Page.text))).1 with
        | none => exceptHandler errCfg doc repairedPending
        | some label =>
          { repairedPending with repairedUnrouted := false,
                                 repairedFiled := some (underscoreLabel label) }

/-- State with a recognition engine at hand, before `ocr_extract` ran. -/
def scanPending (rid ctors : Nat) : PdfResult :=
  { initResult with readerCtors := ctors, usedReader := some rid }

/-- State after `ocr_extract` wrote `{base}_ocr.txt` at the OCR root: one
`readtext` call per page, all served by engine `rid`. -/
def ocrDone (rid ctors : Nat) (ps : List Page) : PdfResult :=
  { scanPending rid ctors with
      ocrUnrouted := true,
      readtextCalls := (List.range ps.length).map fun i => (i, rid) }

/-- The scanned branch of `process_pdf` once an engine `rid` is at hand: open
the source (raising when it cannot be opened), write the OCR text file, read it
back, classify, and move it into `ocr_dir/label.replace(" ", "_")`. -/
def processScanned (env : Env) (errCfg : Bool) (rid ctors : Nat)
    (doc : Document) : PdfResult :=
  match doc.pages with
  | none => exceptHandler errCfg doc (scanPending rid ctors)
  | some ps =>
    match (classify_text env.cls (ocr_write ps)).1 with
    | none => exceptHandler errCfg doc (ocrDone rid ctors ps)
    | some label =>
      { ocrDone rid ctors ps with
          ocrUnrouted := false,
          ocrFiled := some (underscoreLabel label) }

/-- `process_pdf`: route by `is_digital`; on the scanned path, when no engine
was passed in, construct a fresh one (`easyocr.Reader(["hi","en"])`) — a fresh
instance id `nextId` when that construction succeeds, an exception otherwise.
Every exception anywhere in the body falls into `exceptHandler`.  Returns the
result together with the next unused engine instance id. -/
def process_pdf (env : Env) (errCfg : Bool) (reader : Option Nat) (nextId : Nat)
    (doc : Document) : PdfResult × Nat :=
  if is_digital doc then (processDigital env errCfg doc, nextId)
  else
    match reader with
    | some rid => (processScanned env errCfg rid 0 doc, nextId)
    | none =>
      if env.fallbackReaderOk then
        (processScanned env errCfg nextId 1 doc, nextId + 1)
      else (exceptHandler errCfg doc initResult, nextId)

/-- `filename.lower().endswith(".pdf")`. -/
def lowerPdf (s : String) : Bool := pyEndsWith (pyLower s) ".pdf"

/-- `limit is not None and count >= limit`. -/
def limitReached : Option Nat → Nat → Bool
  | none, _ => false
  | some l, c => decide (l ≤ c)

/-- The loop of `main` over the sorted listing: skip names not ending in
`.pdf` (case-insensitively) without counting them, `break` once the cap is
reached, otherwise process the document and count it — unconditionally, since
`process_pdf` catches every exception.  Instance ids for fallback engines are
threaded through. -/
def mainLoop (env : Env) (errCfg : Bool) (reader : Option Nat)
    (limit : Option Nat) :
    List Document → Nat → Nat → List (String × PdfResult)
  | [], _, _ => []
  | d :: ds, count, nextId =>
    if lowerPdf d.name = false then mainLoop env errCfg reader limit ds count nextId
    else if limitReached limit count then []
    else
      (d.name, (process_pdf env errCfg reader nextId d).1)
        :: mainLoop env errCfg reader limit ds (count + 1)
             (process_pdf env errCfg reader nextId d).2

/-- One step of the sort behind `sorted(os.listdir(input_dir))`: insert a
document into an already-sorted listing, before any name it compares
less-or-equal to. -/
def insertName (d : Document) : List Document → List Document
  | [] => [d]
  | e :: es => if pyStrLe d.name e.name then d :: e :: es else e :: insertName d es

/-- `sorted(os.listdir(input_dir))`: the directory listing in ascending
filename order (a stable insertion sort; directory entries are pairwise
distinct, so any correct sort gives Python's order). -/
def sortByName : List Document → List Document
  | [] => []
  | d :: ds => insertName d (sortByName ds)

/-- The outcome of a batch run: the processed documents in order with their
results, and the total number of recognition-engine constructions (the one in
`main` when it succeeds, plus any fallback constructions). -/
structure RunResult where
  processed : List (String × PdfResult)
  readerCtors : Nat
deriving DecidableEq

/-- `main`: construct the engine once up front (`reader = None` when that
raises — the source catches it), then run the capped loop over the sorted
listing. -/
def main (env : Env) (files : List Document) (errCfg : Bool)
    (limit : Option Nat) : RunResult :=
  { processed :=
      mainLoop env errCfg (if env.mainReaderOk then some 0 else none) limit
        (sortByName files) 0 1,
    readerCtors :=
      (if env.mainReaderOk then 1 else 0)
        + ((mainLoop env errCfg (if env.mainReaderOk then some 0 else none) limit
              (sortByName files) 0 1).map fun pr => pr.2.readerCtors).sum }

/-- The `.pdf` names of the run in processing order, before the cap. -/
def pdfNames (files : List Document) : List String :=
  ((sortByName files).map Document.name).filter lowerPdf

/-- `l.take n` under an optional cap. -/
def capTake : Option Nat → List String → List String
  | none, l => l
  | some n, l => l.take n

/-- How many of the three outcomes of spec §8 hold for a result: repaired copy
filed under a label subdirectory of the repaired root, OCR text filed under a
label subdirectory of the OCR root, or a copy of the original in the
quarantine directory. -/
def outcomeCount (r : PdfResult) : Nat :=
  (if r.repairedFiled.isSome then 1 else 0)
    + (if r.ocrFiled.isSome then 1 else 0)
    + (if r.quarantined.isSome then 1 else 0)



/-! Concrete documents and environments used by the witnesses and
counterexamples below. -/

/-- A page with a digital text layer. -/
def textPage : Page := ⟨"hello", ["frag"]⟩

/-- A page with no text layer (image-only), whose OCR yields one fragment. -/
def scanPage : Page := ⟨"", ["scan text"]⟩

/-- An environment where every external collaborator behaves: some Ghostscript
candidate resolves, the classifier returns the ranked vocabulary, and both
engine construction sites succeed. -/
def env0 : Env := ⟨fun _ => true, fun _ _ => some LABELS, true, true⟩

/-- A readable one-page digital document whose repair and quarantine copy
would succeed. -/
def okDigital (nm : String) : Document := ⟨nm, some [textPage], true, some [textPage], true⟩

/-- A readable one-page scanned document. -/
def okScan (nm : String) : Document := ⟨nm, some [scanPage], true, none, true⟩

/-- An unreadable document (`fitz.open` raises) whose quarantine copy would
succeed. -/
def badDoc (nm : String) : Document := ⟨nm, none, true, none, true⟩

/-- An unreadable document whose quarantine copy also fails. -/
def badDocNoCopy (nm : String) : Document := ⟨nm, none, true, none, false⟩

/-- Five processable documents with unsorted names, for the cap scenarios. -/
def files5 : List Document :=
  [okDigital "c.pdf", okScan "a.pdf", okDigital "e.pdf", okScan "b.pdf", okDigital "d.pdf"]

/-- An environment where the initial engine construction in `main` fails but
the per-document fallback succeeds. -/
def envNoMainReader : Env := ⟨fun _ => true, fun _ _ => some LABELS, false, true⟩

/-- An environment where no Ghostscript candidate name resolves. -/
def envNoGs : Env := ⟨fun _ => false, fun _ _ => some LABELS, true, true⟩

/-- A well-behaved classification pipeline: returns the vocabulary ranked
as-is. -/
def clsGood : String → List String → Option (List String) := fun _ _ => some LABELS

/-! Ordering lemmas for the sort comparator. -/

theorem charsLt_asymm : ∀ {x y : List Char}, charsLt x y = true → charsLt y x = false
  | [], [] => by simp [charsLt]
  | [], _ :: _ => by simp [charsLt]
  | _ :: _, [] => by simp [charsLt]
  | a :: as, b :: bs => by
      by_cases hab : a < b
      · simp [charsLt, hab, asymm hab, not_lt_of_lt hab]
      · by_cases hba : b < a
        · simp [charsLt, hab, hba]
        · simpa [charsLt, hab, hba] using charsLt_asymm (x := as) (y := bs)

theorem charsLt_conn :
    ∀ {x y : List Char}, charsLt x y = false → charsLt y x = false → x = y
  | [], [] => by simp
  | [], _ :: _ => by simp [charsLt]
  | _ :: _, [] => by simp [charsLt]
  | a :: as, b :: bs => by
      by_cases hab : a < b
      · simp [charsLt, hab]
      · by_cases hba : b < a
        · simp [charsLt, hab, hba]
        · intro h₁ h₂
          have hab' : a = b := le_antisymm (not_lt.mp hba) (not_lt.mp hab)
          simp only [charsLt, if_neg hab, if_neg hba] at h₁ h₂
          rw [hab', charsLt_conn h₁ h₂]

theorem charsLt_trans :
    ∀ {x y z : List Char}, charsLt x y = true → charsLt y z = true → charsLt x z = true
  | [], [], _ => by simp [charsLt]
  | [], _ :: _, [] => by simp [charsLt]
  | [], _ :: _, _ :: _ => by simp [charsLt]
  | _ :: _, [], _ => by simp [charsLt]
  | a :: as, b :: bs, [] => by simp [charsLt]
  | a :: as, b :: bs, c :: cs => by
      by_cases hab : a < b
      · by_cases hbc : b < c
        · simp [charsLt, hab, hbc, lt_trans hab hbc]
        · by_cases hcb : c < b
          · simp [charsLt, hab, hbc, hcb]
          · have : b = c := le_antisymm (not_lt.mp hcb) (not_lt.mp hbc)
            subst this
            simp [charsLt, hab, lt_irrefl, asymm hab]
      · by_cases hba : b < a
        · simp [charsLt, hab, hba]
        · have hab' : a = b := le_antisymm (not_lt.mp hba) (not_lt.mp hab)
          subst hab'
          by_cases hac : a < c
          · simp [charsLt, hac]
          · by_cases hca : c < a
            · simp [charsLt, lt_irrefl, hca]
            · simp only [charsLt, if_neg hac, if_neg hca, if_neg (lt_irrefl a)]
              exact fun h₁ h₂ => charsLt_trans h₁ h₂

theorem pyStrLe_total (a b : String) : pyStrLe a b = true ∨ pyStrLe b a = true := by
  by_cases h : charsLt b.data a.data = true
  · right; simp [pyStrLe, charsLt_asymm h]
  · left; simp [pyStrLe]; exact Bool.eq_false_iff.mpr h

theorem pyStrLe_trans {a b c : String} (h₁ : pyStrLe a b = true) (h₂ : pyStrLe b c = true) :
    pyStrLe a c = true := by
  simp only [pyStrLe, Bool.not_eq_true', Bool.not_eq_false] at h₁ h₂ ⊢
  by_cases hca : charsLt c.data a.data = true
  · by_cases hab : charsLt a.data b.data = true
    · exact absurd (charsLt_trans hca hab) (by simp [h₂])
    · have : a.data = b.data := charsLt_conn (Bool.eq_false_iff.mpr hab) h₁
      rw [this] at hca
      exact absurd hca (by simp [h₂])
  · exact Bool.eq_false_iff.mpr hca

/-! Correctness of the listing sort. -/

theorem insertName_perm (d : Document) :
    ∀ l : List Document, (insertName d l).Perm (d :: l)
  | [] => by simp [insertName]
  | e :: es => by
      by_cases h : pyStrLe d.name e.name = true
      · simp [insertName, h]
      · rw [insertName, if_neg h]
        exact ((insertName_perm d es).cons e).trans (List.Perm.swap d e es)

theorem mem_insertName {x d : Document} {l : List Document} :
    x ∈ insertName d l ↔ x = d ∨ x ∈ l := by
  rw [(insertName_perm d l).mem_iff, List.mem_cons]

theorem sortByName_perm : ∀ l : List Document, (sortByName l).Perm l
  | [] => by simp [sortByName]
  | d :: ds => by
      rw [sortByName]
      exact (insertName_perm d (sortByName ds)).trans ((sortByName_perm ds).cons d)

theorem insertName_pairwise (d : Document) :
    ∀ {l : List Document}, l.Pairwise (fun a b => pyStrLe a.name b.name = true) →
      (insertName d l).Pairwise (fun a b => pyStrLe a.name b.name = true)
  | [], _ => by simp [insertName]
  | e :: es, h => by
      rcases List.pairwise_cons.mp h with ⟨he, hes⟩
      by_cases hd : pyStrLe d.name e.name = true
      · rw [insertName, if_pos hd]
        refine List.pairwise_cons.mpr ⟨?_, h⟩
        intro x hx
        rcases List.mem_cons.mp hx with rfl | hx
        · exact hd
        · exact pyStrLe_trans hd (he x hx)
      · rw [insertName, if_neg hd]
        refine List.pairwise_cons.mpr ⟨?_, insertName_pairwise d hes⟩
        intro x hx
        rcases mem_insertName.mp hx with rfl | hx
        · exact (pyStrLe_total x.name e.name).resolve_left hd
        · exact he x hx

theorem sortByName_pairwise :
    ∀ l : List Document,
      (sortByName l).Pairwise (fun a b => pyStrLe a.name b.name = true)
  | [] => by simp [sortByName]
  | d :: ds => insertName_pairwise d (sortByName_pairwise ds)

/-! Facts about the orchestrator loop. -/

theorem capTake_none (l : List String) : capTake none l = l := rfl

theorem capTake_some (n : Nat) (l : List String) : capTake (some n) l = l.take n := rfl

theorem mainLoop_map_fst (env : Env) (errCfg : Bool) (reader : Option Nat)
    (limit : Option Nat) :
    ∀ (ds : List Document) (count nextId : Nat),
      (mainLoop env errCfg reader limit ds count nextId).map Prod.fst
        = capTake (limit.map fun l => l - count) ((ds.map Document.name).filter lowerPdf)
  | [], count, nextId => by cases limit <;> simp [mainLoop, capTake]
  | d :: ds, count, nextId => by
      by_cases hpdf : lowerPdf d.name = false
      · rw [mainLoop, if_pos hpdf]
        rw [mainLoop_map_fst env errCfg reader limit ds count]
        simp [List.filter_cons, hpdf]
      · rw [mainLoop, if_neg hpdf]
        rw [Bool.not_eq_false] at hpdf
        cases limit with
        | none =>
            rw [if_neg (by simp [limitReached])]
            simp only [List.map_cons]
            rw [mainLoop_map_fst env errCfg reader none ds (count + 1)]
            simp [capTake_none, List.filter_cons, hpdf]
        | some N =>
            by_cases hlim : N ≤ count
            · rw [if_pos (by simp [limitReached, hlim])]
              have h0 : N - count = 0 := Nat.sub_eq_zero_of_le hlim
              simp [capTake, List.filter_cons, hpdf, h0]
            · rw [if_neg (by simp [limitReached, hlim])]
              simp only [List.map_cons]
              rw [mainLoop_map_fst env errCfg reader (some N) ds (count + 1)]
              simp only [List.map_cons, List.filter_cons, hpdf, if_pos, Option.map_some',
                capTake_some]
              have h1 : N - count = (N - (count + 1)) + 1 := by omega
              rw [h1, List.take_succ_cons]

theorem mem_mainLoop {env : Env} {errCfg : Bool} {reader : Option Nat}
    {limit : Option Nat} :
    ∀ {ds : List Document} {count nextId : Nat} {pr : String × PdfResult},
      pr ∈ mainLoop env errCfg reader limit ds count nextId →
        ∃ d, d ∈ ds ∧ ∃ nid, pr = (d.name, (process_pdf env errCfg reader nid d).1)
  | [], _, _, _ => by simp [mainLoop]
  | d :: ds, count, nextId, pr => by
      by_cases hpdf : lowerPdf d.name = false
      · rw [mainLoop, if_pos hpdf]
        intro h
        rcases mem_mainLoop h with ⟨e, he, nid, hpr⟩
        exact ⟨e, List.mem_cons_of_mem d he, nid, hpr⟩
      · rw [mainLoop, if_neg hpdf]
        by_cases hlim : limitReached limit count = true
        · simp [hlim]
        · rw [if_neg hlim]
          intro h
          rcases List.mem_cons.mp h with rfl | h
          · exact ⟨d, List.mem_cons_self d ds, nextId, rfl⟩
          · rcases mem_mainLoop h with ⟨e, he, nid, hpr⟩
            exact ⟨e, List.mem_cons_of_mem d he, nid, hpr⟩

/-! Per-branch facts about `process_pdf`. -/

theorem calls_snd (n rid : Nat) :
    ∀ c ∈ (List.range n).map (fun i => (i, rid)), c.2 = rid := by
  intro c hc
  rcases List.mem_map.mp hc with ⟨i, _, rfl⟩
  rfl

theorem outcomeCount_exceptHandler (doc : Document) (r : PdfResult)
    (hr : r.repairedFiled = none) (ho : r.ocrFiled = none)
    (hc : doc.errorCopyOk = true) :
    outcomeCount (exceptHandler true doc r) = 1 := by
  simp [exceptHandler, outcomeCount, hr, ho, hc]

theorem exceptHandler_quarantine (doc : Document) (r : PdfResult)
    (hc : doc.errorCopyOk = true) :
    (exceptHandler true doc r).quarantined = some doc := by
  simp [exceptHandler, hc]

theorem processDigital_stage (env : Env) (errCfg : Bool) (doc : Document) :
    (processDigital env errCfg doc).ocrFiled = none
    ∧ (processDigital env errCfg doc).ocrUnrouted = false
    ∧ (processDigital env errCfg doc).readerCtors = 0
    ∧ (processDigital env errCfg doc).readtextCalls = [] := by
  unfold processDigital
  split
  · exact ⟨rfl, rfl, rfl, rfl⟩
  · split
    · exact ⟨rfl, rfl, rfl, rfl⟩
    · split
      · exact ⟨rfl, rfl, rfl, rfl⟩
      · split
        · exact ⟨rfl, rfl, rfl, rfl⟩
        · exact ⟨rfl, rfl, rfl, rfl⟩

theorem processScanned_stage (env : Env) (errCfg : Bool) (rid ctors : Nat)
    (doc : Document) :
    (processScanned env errCfg rid ctors doc).repairedFiled = none
    ∧ (processScanned env errCfg rid ctors doc).repairedUnrouted = false
    ∧ (processScanned env errCfg rid ctors doc).readerCtors = ctors
    ∧ ∀ c ∈ (processScanned env errCfg rid ctors doc).readtextCalls, c.2 = rid := by
  unfold processScanned
  split
  · exact ⟨rfl, rfl, rfl, fun c hc => by cases hc⟩
  · split
    · exact ⟨rfl, rfl, rfl, calls_snd _ rid⟩
    · exact ⟨rfl, rfl, rfl, calls_snd _ rid⟩

theorem outcomeCount_processDigital (env : Env) (d : Document)
    (hc : d.errorCopyOk = true) :
    outcomeCount (processDigital env true d) = 1 := by
  unfold processDigital
  split
  · exact outcomeCount_exceptHandler d initResult rfl rfl hc
  · split
    · exact outcomeCount_exceptHandler d initResult rfl rfl hc
    · split
      · exact outcomeCount_exceptHandler d repairedPending rfl rfl hc
      · split
        · exact outcomeCount_exceptHandler d repairedPending rfl rfl hc
        · simp [outcomeCount, repairedPending, initResult]

theorem outcomeCount_processScanned (env : Env) (rid ctors : Nat) (d : Document)
    (hc : d.errorCopyOk = true) :
    outcomeCount (processScanned env true rid ctors d) = 1 := by
  unfold processScanned
  split
  · exact outcomeCount_exceptHandler d (scanPending rid ctors) rfl rfl hc
  · split
    · exact outcomeCount_exceptHandler d (ocrDone rid ctors _) rfl rfl hc
    · simp [outcomeCount, ocrDone, scanPending, initResult]

theorem outcomeCount_process_pdf (env : Env) (reader : Option Nat) (nid : Nat)
    (d : Document) (hc : d.errorCopyOk = true) :
    outcomeCount (process_pdf env true reader nid d).1 = 1 := by
  unfold process_pdf
  split
  · exact outcomeCount_processDigital env d hc
  · split
    · exact outcomeCount_processScanned env _ 0 d hc
    · split
      · exact outcomeCount_processScanned env _ 1 d hc
      · exact outcomeCount_exceptHandler d initResult rfl rfl hc

theorem processDigital_quarantine (env : Env) (d : Document)
    (hc : d.errorCopyOk = true) :
    (processDigital env true d).errored = true →
      (processDigital env true d).quarantined = some d := by
  unfold processDigital
  split
  · exact fun _ => exceptHandler_quarantine d _ hc
  · split
    · exact fun _ => exceptHandler_quarantine d _ hc
    · split
      · exact fun _ => exceptHandler_quarantine d _ hc
      · split
        · exact fun _ => exceptHandler_quarantine d _ hc
        · intro he
          simp [repairedPending, initResult] at he

theorem processScanned_quarantine (env : Env) (rid ctors : Nat) (d : Document)
    (hc : d.errorCopyOk = true) :
    (processScanned env true rid ctors d).errored = true →
      (processScanned env true rid ctors d).quarantined = some d := by
  unfold processScanned
  split
  · exact fun _ => exceptHandler_quarantine d _ hc
  · split
    · exact fun _ => exceptHandler_quarantine d _ hc
    · intro he
      simp [ocrDone, scanPending, initResult] at he

theorem process_pdf_quarantine (env : Env) (reader : Option Nat) (nid : Nat)
    (d : Document) (hc : d.errorCopyOk = true) :
    (process_pdf env true reader nid d).1.errored = true →
      (process_pdf env true reader nid d).1.quarantined = some d := by
  unfold process_pdf
  split
  · exact processDigital_quarantine env d hc
  · split
    · exact processScanned_quarantine env _ 0 d hc
    · split
      · exact processScanned_quarantine env _ 1 d hc
      · exact fun _ => exceptHandler_quarantine d _ hc

theorem process_pdf_reader_zero (env : Env) (errCfg : Bool) (rid nid : Nat)
    (d : Document) :
    (process_pdf env errCfg (some rid) nid d).1.readerCtors = 0
    ∧ ∀ c ∈ (process_pdf env errCfg (some rid) nid d).1.readtextCalls, c.2 = rid := by
  unfold process_pdf
  split
  · refine ⟨(processDigital_stage env errCfg d).2.2.1, ?_⟩
    rw [(processDigital_stage env errCfg d).2.2.2]
    intro c hc
    cases hc
  · exact ⟨(processScanned_stage env errCfg rid 0 d).2.2.1,
      (processScanned_stage env errCfg rid 0 d).2.2.2⟩

theorem processDigital_gs_none (env : Env) (errCfg : Bool) (d : Document)
    (h : findGs env = none) :
    processDigital env errCfg d = exceptHandler errCfg d initResult := by
  unfold processDigital
  rw [h]

theorem process_pdf_no_repair (env : Env) (errCfg : Bool) (reader : Option Nat)
    (nid : Nat) (d : Document) (h : findGs env = none) :
    (process_pdf env errCfg reader nid d).1.repairedFiled = none
    ∧ (process_pdf env errCfg reader nid d).1.repairedUnrouted = false := by
  unfold process_pdf
  split
  · rw [processDigital_gs_none env errCfg d h]
    exact ⟨rfl, rfl⟩
  · split
    · exact ⟨(processScanned_stage env errCfg _ 0 d).1,
        (processScanned_stage env errCfg _ 0 d).2.1⟩
    · split
      · exact ⟨(processScanned_stage env errCfg _ 1 d).1,
          (processScanned_stage env errCfg _ 1 d).2.1⟩
      · exact ⟨rfl, rfl⟩

theorem process_pdf_digital_gs_none_errored (env : Env) (reader : Option Nat)
    (nid : Nat) (d : Document) (h : findGs env = none)
    (hd : is_digital d = true) :
    (process_pdf env true reader nid d).1.errored = true := by
  unfold process_pdf
  rw [if_pos hd, processDigital_gs_none env true d h]
  rfl

theorem mainLoop_ctors_zero (env : Env) (errCfg : Bool) (rid : Nat)
    (limit : Option Nat) :
    ∀ (ds : List Document) (count nextId : Nat),
      ((mainLoop env errCfg (some rid) limit ds count nextId).map
        fun pr => pr.2.readerCtors).sum = 0
  | [], _, _ => by simp [mainLoop]
  | d :: ds, count, nextId => by
      by_cases hpdf : lowerPdf d.name = false
      · rw [mainLoop, if_pos hpdf]
        exact mainLoop_ctors_zero env errCfg rid limit ds count _
      · rw [mainLoop, if_neg hpdf]
        by_cases hlim : limitReached limit count = true
        · rw [if_pos hlim]
          simp
        · rw [if_neg hlim]
          simp only [List.map_cons, List.sum_cons]
          rw [(process_pdf_reader_zero env errCfg rid _ d).1,
            mainLoop_ctors_zero env errCfg rid limit ds (count + 1) _]

/-! Unfolding helpers for `main`. -/

theorem main_processed (env : Env) (files : List Document) (errCfg : Bool)
    (limit : Option Nat) :
    (main env files errCfg limit).processed
      = mainLoop env errCfg (if env.mainReaderOk then some 0 else none) limit
          (sortByName files) 0 1 := rfl

theorem main_readerCtors (env : Env) (files : List Document) (errCfg : Bool)
    (limit : Option Nat) :
    (main env files errCfg limit).readerCtors
      = (if env.mainReaderOk then 1 else 0)
        + (((main env files errCfg limit).processed).map fun pr => pr.2.readerCtors).sum :=
  rfl

theorem main_processed_names (env : Env) (files : List Document) (errCfg : Bool)
    (limit : Option Nat) :
    (main env files errCfg limit).processed.map Prod.fst
      = capTake limit (pdfNames files) := by
  rw [main_processed, mainLoop_map_fst, pdfNames]
  cases limit with
  | none => rfl
  | some N => simp

theorem main_length (env : Env) (files : List Document) (errCfg : Bool)
    (limit : Option Nat) :
    ((main env files errCfg limit).processed).length
      = (capTake limit (pdfNames files)).length := by
  rw [← main_processed_names env files errCfg limit, List.length_map]

/-! The claims. -/

/-- C5: for every Document that can be opened, the detector returns digital =
true exactly when the number of pages with non-empty extractable text (after
stripping whitespace) is at least half the total page count, and false
otherwise; for every Document that cannot be opened it returns false. -/
theorem C5_is_digital_threshold (d : Document) :
    (∀ ps, d.pages = some ps →
      (is_digital d = true ↔ ((ps.length : ℚ) / 2 ≤ (textPages ps : ℚ))))
    ∧ (d.pages = none → is_digital d = false) := by
  constructor
  · intro ps hps
    have hd : is_digital d = decide (ps.length ≤ 2 * textPages ps) := by
      unfold is_digital
      rw [hps]
    rw [hd]
    simp only [decide_eq_true_eq]
    rw [div_le_iff₀ (by norm_num : (0:ℚ) < 2)]
    constructor
    · intro h
      have h2 : (ps.length : ℚ) ≤ 2 * (textPages ps : ℚ) := by exact_mod_cast h
      linarith
    · intro h
      have h2 : (ps.length : ℚ) ≤ 2 * (textPages ps : ℚ) := by linarith
      exact_mod_cast h2
  · intro h
    unfold is_digital
    rw [h]

/-- Witness for C5: a one-page digital document satisfies the threshold and is
detected digital; an unreadable document is reported non-digital. -/
theorem C5_is_digital_threshold_witness :
    (is_digital (okDigital "w5.pdf") = true ↔
      ((([textPage] : List Page).length : ℚ) / 2 ≤ (textPages [textPage] : ℚ)))
    ∧ is_digital (badDoc "u5.pdf") = false :=
  ⟨(C5_is_digital_threshold (okDigital "w5.pdf")).1 [textPage] rfl,
   (C5_is_digital_threshold (badDoc "u5.pdf")).2 rfl⟩

/-- C6 counterexample: a readable document with zero pages has zero pages with
extractable text, yet the detector classifies it digital (`0 >= 0 / 2`),
contradicting the claim that zero text pages always classify non-digital. -/
theorem C6_cex_zero_pages :
    textPages ([] : List Page) = 0
    ∧ is_digital ⟨"empty.pdf", some [], true, none, true⟩ = true := by
  exact ⟨rfl, rfl⟩

/-- C6 amended: for every readable Document with at least one page, all pages
bearing extractable text forces the digital classification and zero pages
bearing extractable text forces the non-digital classification; a readable
zero-page Document (excluded here) is classified digital. -/
theorem C6_monotone_amended (d : Document) (ps : List Page)
    (hps : d.pages = some ps) :
    ((∀ p ∈ ps, strippedEmpty p.text = false) → is_digital d = true)
    ∧ (ps ≠ [] → (∀ p ∈ ps, strippedEmpty p.text = true) → is_digital d = false) := by
  have hd : is_digital d = decide (ps.length ≤ 2 * textPages ps) := by
    unfold is_digital
    rw [hps]
  constructor
  · intro hall
    have hfil : ps.filter (fun p => !strippedEmpty p.text) = ps :=
      List.filter_eq_self.mpr (fun p hp => by rw [hall p hp]; rfl)
    have ht : textPages ps = ps.length := by
      unfold textPages
      rw [hfil]
    rw [hd, ht]
    simp only [decide_eq_true_eq]
    omega
  · intro hne hzero
    have hfil : ps.filter (fun p => !strippedEmpty p.text) = [] :=
      List.filter_eq_nil_iff.mpr (fun p hp => by simp [hzero p hp])
    have ht : textPages ps = 0 := by
      unfold textPages
      rw [hfil]
      rfl
    rw [hd, ht]
    simp only [Nat.mul_zero, decide_eq_false_iff_not, Nat.le_zero]
    exact fun h0 => hne (List.eq_nil_of_length_eq_zero h0)

/-- Witness for C6 amended at concrete one-page documents: all-text classifies
digital, no-text classifies non-digital. -/
theorem C6_monotone_amended_witness :
    is_digital (okDigital "w6.pdf") = true ∧ is_digital (okScan "s6.pdf") = false :=
  ⟨(C6_monotone_amended (okDigital "w6.pdf") [textPage] rfl).1 (by decide),
   (C6_monotone_amended (okScan "s6.pdf") [scanPage] rfl).2 (by decide) (by decide)⟩

/-! Positional structure of the OCR write sequence. -/

theorem ocr_writes_from_length :
    ∀ (ps : List Page) (i : Nat), (ocr_writes_from i ps).length = 3 * ps.length
  | [], _ => rfl
  | p :: ps, i => by
      simp only [ocr_writes_from, List.length_cons,
        ocr_writes_from_length ps (i + 1)]
      ring

theorem ocr_writes_from_marker :
    ∀ (ps : List Page) (i k : Nat), k < ps.length →
      (ocr_writes_from i ps)[3 * k]? = some ("Page " ++ toString (i + k + 1) ++ ":\n")
  | [], _, k, h => absurd h (Nat.not_lt_zero k)
  | p :: ps, i, 0, _ => by simp [ocr_writes_from]
  | p :: ps, i, k + 1, h => by
      have h3 : 3 * (k + 1) = 3 * k + 1 + 1 + 1 := by ring
      rw [ocr_writes_from, h3]
      simp only [List.getElem?_cons_succ]
      rw [ocr_writes_from_marker ps (i + 1) k (by simpa using h)]
      have e : i + 1 + k + 1 = i + (k + 1) + 1 := by omega
      rw [e]

theorem ocr_writes_from_body :
    ∀ (ps : List Page) (i k : Nat) (pg : Page), ps[k]? = some pg →
      (ocr_writes_from i ps)[3 * k + 1]? = some (String.intercalate " " pg.frags)
  | [], _, k, pg, h => by simp at h
  | p :: ps, i, 0, pg, h => by
      have hp : p = pg := by simpa using h
      subst hp
      simp [ocr_writes_from]
  | p :: ps, i, k + 1, pg, h => by
      have h3 : 3 * (k + 1) + 1 = 3 * k + 1 + 1 + 1 + 1 := by ring
      rw [ocr_writes_from, h3]
      simp only [List.getElem?_cons_succ]
      exact ocr_writes_from_body ps (i + 1) k pg (by simpa using h)

theorem ocr_writes_from_sep :
    ∀ (ps : List Page) (i k : Nat), k < ps.length →
      (ocr_writes_from i ps)[3 * k + 2]? = some ("\n" ++ dashLine ++ "\n")
  | [], _, k, h => absurd h (Nat.not_lt_zero k)
  | p :: ps, i, 0, _ => by simp [ocr_writes_from]
  | p :: ps, i, k + 1, h => by
      have h3 : 3 * (k + 1) + 2 = 3 * k + 2 + 1 + 1 + 1 := by ring
      rw [ocr_writes_from, h3]
      simp only [List.getElem?_cons_succ]
      exact ocr_writes_from_sep ps (i + 1) k (by simpa using h)

/-- C7: for a scanned Document with pages 1..n, the extraction writes exactly
3n chunks: for every k < n the chunk at position 3k is the marker
`Page (k+1):` — so the file carries exactly n markers, in ascending page
order — the chunk at 3k+1 is the space-joined recognized fragments of page k,
and the chunk at 3k+2 is a newline-delimited separator of exactly 80 `-`
characters; the produced text file is the concatenation of these chunks. -/
theorem C7_ocr_page_format (ps : List Page) :
    (ocr_writes ps).length = 3 * ps.length
    ∧ (∀ k, k < ps.length →
        (ocr_writes ps)[3 * k]? = some ("Page " ++ toString (k + 1) ++ ":\n"))
    ∧ (∀ k pg, ps[k]? = some pg →
        (ocr_writes ps)[3 * k + 1]? = some (String.intercalate " " pg.frags))
    ∧ (∀ k, k < ps.length →
        (ocr_writes ps)[3 * k + 2]? = some ("\n" ++ dashLine ++ "\n"))
    ∧ dashLine.length = 80 ∧ (∀ c ∈ dashLine.data, c = '-')
    ∧ ocr_write ps = String.join (ocr_writes ps) := by
  refine ⟨ocr_writes_from_length ps 0, ?_, ?_, ?_, by decide, by decide, rfl⟩
  · intro k hk
    rw [ocr_writes, ocr_writes_from_marker ps 0 k hk, Nat.zero_add]
  · intro k pg hpg
    exact ocr_writes_from_body ps 0 k pg hpg
  · intro k hk
    exact ocr_writes_from_sep ps 0 k hk

/-- Witness for C7 on a concrete two-page scanned document: six chunks, the
markers for pages 1 and 2 at positions 0 and 3, and page 2's joined fragments
at position 4. -/
theorem C7_ocr_page_format_witness :
    (ocr_writes [scanPage, textPage]).length = 6
    ∧ (ocr_writes [scanPage, textPage])[0]? = some ("Page " ++ toString (0 + 1) ++ ":\n")
    ∧ (ocr_writes [scanPage, textPage])[3]? = some ("Page " ++ toString (1 + 1) ++ ":\n")
    ∧ (ocr_writes [scanPage, textPage])[4]? = some (String.intercalate " " textPage.frags) :=
  ⟨(C7_ocr_page_format [scanPage, textPage]).1,
   (C7_ocr_page_format [scanPage, textPage]).2.1 0 (by decide),
   (C7_ocr_page_format [scanPage, textPage]).2.1 1 (by decide),
   (C7_ocr_page_format [scanPage, textPage]).2.2.1 1 textPage (by decide)⟩

/-- C8: blank input short-circuits to the label "unknown" with zero pipeline
invocations; non-blank input invokes the pipeline exactly once and — provided
the pipeline returns its ranked permutation of the closed vocabulary — the
returned label is a member of the closed label set. -/
theorem C8_classify_contract (cls : String → List String → Option (List String))
    (text : String) :
    (strippedEmpty text = true → classify_text cls text = (some "unknown", 0))
    ∧ (strippedEmpty text = false →
        (classify_text cls text).2 = 1
        ∧ ∀ ranked, cls text LABELS = some ranked → ranked.Perm LABELS →
            ∃ l, l ∈ LABELS ∧ (classify_text cls text).1 = some l) := by
  constructor
  · intro h
    unfold classify_text
    rw [h]
    rfl
  · intro h
    constructor
    · unfold classify_text
      rw [h]
      cases hc : cls text LABELS with
      | none => rfl
      | some ranked => rfl
    · intro ranked hc hperm
      cases ranked with
      | nil => exact absurd hperm.length_eq (by decide)
      | cons l rest =>
          refine ⟨l, hperm.mem_iff.mp (List.mem_cons_self l rest), ?_⟩
          unfold classify_text
          rw [h]
          simp [hc]

/-- Witness for C8: blank input yields "unknown" with no invocation; "hi"
yields one invocation and a label from the closed set. -/
theorem C8_classify_contract_witness :
    classify_text clsGood "  " = (some "unknown", 0)
    ∧ (classify_text clsGood "hi").2 = 1
    ∧ ∃ l, l ∈ LABELS ∧ (classify_text clsGood "hi").1 = some l :=
  ⟨(C8_classify_contract clsGood "  ").1 (by decide),
   ((C8_classify_contract clsGood "hi").2 (by decide)).1,
   ((C8_classify_contract clsGood "hi").2 (by decide)).2 LABELS rfl (List.Perm.refl _)⟩

/-- C1 counterexample: quarantine directory configured, Ghostscript resolving
(so the fatal-configuration carve-out does not apply), one unreadable document
whose quarantine copy itself fails: after the run it is in none of the three
outcomes — its repaired copy is not filed, no OCR text is filed, and no copy
reached the quarantine directory, because the copy error is swallowed by the
inner `except Exception: pass`.  "Never zero" therefore fails. -/
theorem C1_cex_zero_outcomes :
    ((main env0 [badDocNoCopy "x.pdf"] true (some 50)).processed.map
      fun pr => outcomeCount pr.2) = [0] := by decide

/-- C1 amended: provided the quarantine copy succeeds for every Document that
needs it, each processed Document ends in exactly one of the three outcomes
(repaired-and-filed, OCR'd-and-filed, quarantined); when processing fails and
the quarantine copy also fails, none of the three holds. -/
theorem C1_exactly_one_outcome (env : Env) (files : List Document)
    (limit : Option Nat) (hcopy : ∀ d ∈ files, d.errorCopyOk = true) :
    ∀ pr ∈ (main env files true limit).processed, outcomeCount pr.2 = 1 := by
  intro pr hpr
  rw [main_processed] at hpr
  rcases mem_mainLoop hpr with ⟨d, hd, nid, rfl⟩
  exact outcomeCount_process_pdf env _ nid d
    (hcopy d ((sortByName_perm files).mem_iff.mp hd))

/-- Witness for C1 amended: five well-behaved documents, each ending in
exactly one outcome. -/
theorem C1_exactly_one_outcome_witness :
    (∀ d ∈ files5, d.errorCopyOk = true)
    ∧ ∀ pr ∈ (main env0 files5 true (some 50)).processed, outcomeCount pr.2 = 1 :=
  ⟨by decide, C1_exactly_one_outcome env0 files5 (some 50) (by decide)⟩

/-- C2 counterexample: no Ghostscript candidate resolves, yet the run does not
abort: two digital documents are both dispatched, each raises the
`RuntimeError` inside its own per-document guard and is quarantined, and the
run continues past the first to the second — contradicting the claim that the
missing tool is a fatal error aborting the run before any digital-path
Document is processed. -/
theorem C2_cex_not_fatal :
    findGs envNoGs = none
    ∧ ((main envNoGs [okDigital "d1.pdf", okDigital "d2.pdf"] true none).processed.map
        fun pr => (pr.1, pr.2.errored, pr.2.quarantined.isSome))
      = [("d1.pdf", true, true), ("d2.pdf", true, true)] := by decide

/-- C2 amended: when no candidate executable resolves, the error is contained
per Document, not fatal: no Document ever acquires a repaired artifact (filed
or unrouted), every digital Document's processing errors, every errored
Document is quarantined when its copy succeeds, and the run still processes
the full capped pdf listing rather than aborting. -/
theorem C2_missing_gs_contained (env : Env) (files : List Document)
    (limit : Option Nat) (hgs : findGs env = none)
    (hcopy : ∀ d ∈ files, d.errorCopyOk = true) :
    (∀ pr ∈ (main env files true limit).processed,
      pr.2.repairedFiled = none ∧ pr.2.repairedUnrouted = false
      ∧ (pr.2.errored = true → pr.2.quarantined.isSome = true))
    ∧ (∀ d ∈ files, ∀ reader nid, is_digital d = true →
        (process_pdf env true reader nid d).1.errored = true)
    ∧ (main env files true limit).processed.map Prod.fst
        = capTake limit (pdfNames files) := by
  refine ⟨?_, ?_, main_processed_names env files true limit⟩
  · intro pr hpr
    rw [main_processed] at hpr
    rcases mem_mainLoop hpr with ⟨d, hd, nid, rfl⟩
    have hdf : d ∈ files := (sortByName_perm files).mem_iff.mp hd
    refine ⟨(process_pdf_no_repair env true _ nid d hgs).1,
      (process_pdf_no_repair env true _ nid d hgs).2, fun he => ?_⟩
    rw [process_pdf_quarantine env _ nid d (hcopy d hdf) he]
    rfl
  · intro d _ reader nid hdig
    exact process_pdf_digital_gs_none_errored env reader nid d hgs hdig

/-- Witness for C2 amended: with no resolving candidate, a scanned and a
digital document are both still processed (the run is not aborted). -/
theorem C2_missing_gs_contained_witness :
    findGs envNoGs = none
    ∧ (∀ d ∈ [okScan "s.pdf", okDigital "g.pdf"], d.errorCopyOk = true)
    ∧ (main envNoGs [okScan "s.pdf", okDigital "g.pdf"] true none).processed.map Prod.fst
        = capTake none (pdfNames [okScan "s.pdf", okDigital "g.pdf"]) :=
  ⟨by decide, by decide,
   (C2_missing_gs_contained envNoGs [okScan "s.pdf", okDigital "g.pdf"] none
     (by decide) (by decide)).2.2⟩

/-- C3 counterexample: when the initial engine construction in `main` fails
but the per-document fallback construction succeeds, a run over two scanned
documents constructs two recognition engines — "constructed at most once per
batch run" fails. -/
theorem C3_cex_two_constructions :
    (main envNoMainReader [okScan "s1.pdf", okScan "s2.pdf"] true none).readerCtors
      = 2 := by decide

/-- C3 amended: when the initial construction in `main` succeeds, exactly one
recognition engine is constructed in the whole run, and that same instance
(id 0) serves every `readtext` call of every scanned Document and page. -/
theorem C3_single_engine (env : Env) (files : List Document) (errCfg : Bool)
    (limit : Option Nat) (h : env.mainReaderOk = true) :
    (main env files errCfg limit).readerCtors = 1
    ∧ ∀ pr ∈ (main env files errCfg limit).processed,
        ∀ c ∈ pr.2.readtextCalls, c.2 = 0 := by
  have hr : (if env.mainReaderOk then (some 0 : Option Nat) else none) = some 0 := by
    rw [h]
    rfl
  constructor
  · rw [main_readerCtors, main_processed, hr, h, if_pos rfl,
      mainLoop_ctors_zero env errCfg 0 limit (sortByName files) 0 1]
  · intro pr hpr c hc
    rw [main_processed, hr] at hpr
    rcases mem_mainLoop hpr with ⟨d, hd, nid, rfl⟩
    exact (process_pdf_reader_zero env errCfg 0 nid d).2 c hc

/-- Witness for C3 amended: a healthy run over five documents constructs the
engine exactly once. -/
theorem C3_single_engine_witness :
    env0.mainReaderOk = true ∧ (main env0 files5 true (some 50)).readerCtors = 1 :=
  ⟨rfl, (C3_single_engine env0 files5 true (some 50) rfl).1⟩

/-- C4 counterexample: error directory configured, "y.pdf" fails processing
and its quarantine copy itself fails: the claim says the original is copied
into quarantine, but the run ends with "y.pdf" errored and no quarantine
copy — while the batch does continue to "z.pdf". -/
theorem C4_cex_copy_failure :
    ((main env0 [badDocNoCopy "y.pdf", okDigital "z.pdf"] true none).processed.map
      fun pr => (pr.1, pr.2.errored, pr.2.quarantined.isSome))
    = [("y.pdf", true, false), ("z.pdf", false, false)] := by decide

/-- C4 amended: when the quarantine copy operation itself succeeds, every
Document whose processing raises ends with a copy of the original (the full
`Document` value, hence byte-identical content; the source is copied from the
input directory, never moved or modified) in the quarantine directory, and
the batch continues: the processed listing is the capped pdf listing,
independent of failures. -/
theorem C4_quarantine_copy (env : Env) (files : List Document)
    (limit : Option Nat) (hcopy : ∀ d ∈ files, d.errorCopyOk = true) :
    (∀ pr ∈ (main env files true limit).processed, pr.2.errored = true →
      ∃ d ∈ files, d.name = pr.1 ∧ pr.2.quarantined = some d)
    ∧ (main env files true limit).processed.map Prod.fst
        = capTake limit (pdfNames files) := by
  refine ⟨?_, main_processed_names env files true limit⟩
  intro pr hpr he
  rw [main_processed] at hpr
  rcases mem_mainLoop hpr with ⟨d, hd, nid, rfl⟩
  have hdf : d ∈ files := (sortByName_perm files).mem_iff.mp hd
  exact ⟨d, hdf, rfl, process_pdf_quarantine env _ nid d (hcopy d hdf) he⟩

/-- Witness for C4 amended: a failing document with a working quarantine copy
is quarantined as the original, and the following document is still
processed. -/
theorem C4_quarantine_copy_witness :
    (∀ d ∈ [badDoc "a4.pdf", okScan "b4.pdf"], d.errorCopyOk = true)
    ∧ (main env0 [badDoc "a4.pdf", okScan "b4.pdf"] true none).processed.map Prod.fst
        = capTake none (pdfNames [badDoc "a4.pdf", okScan "b4.pdf"]) :=
  ⟨by decide,
   (C4_quarantine_copy env0 [badDoc "a4.pdf", okScan "b4.pdf"] none (by decide)).2⟩

/-- C9: with a cap of N and more than N pdf files present, exactly the first N
names of the lexicographically ordered pdf listing are processed and every pdf
file beyond the first N is untouched (names in a directory are distinct); the
enumeration really is lexicographic: the sorted listing is an ordered
permutation of the input. -/
theorem C9_processing_cap (env : Env) (files : List Document) (errCfg : Bool)
    (N : Nat) (hN : N < (pdfNames files).length)
    (hnd : (files.map Document.name).Nodup) :
    (main env files errCfg (some N)).processed.map Prod.fst = (pdfNames files).take N
    ∧ ((main env files errCfg (some N)).processed).length = N
    ∧ (∀ nm ∈ (pdfNames files).drop N,
        nm ∉ (main env files errCfg (some N)).processed.map Prod.fst)
    ∧ ((sortByName files).map Document.name).Pairwise (fun a b => pyStrLe a b = true)
    ∧ (sortByName files).Perm files := by
  have hnames : (main env files errCfg (some N)).processed.map Prod.fst
      = (pdfNames files).take N := by
    rw [main_processed_names env files errCfg (some N), capTake_some]
  have hnd' : (pdfNames files).Nodup := by
    have hperm : ((sortByName files).map Document.name).Perm (files.map Document.name) :=
      (sortByName_perm files).map Document.name
    exact (hperm.nodup_iff.mpr hnd).filter lowerPdf
  refine ⟨hnames, ?_, ?_, ?_, sortByName_perm files⟩
  · rw [← List.length_map ((main env files errCfg (some N)).processed) Prod.fst, hnames,
      List.length_take]
    exact Nat.min_eq_left (Nat.le_of_lt hN)
  · intro nm hdrop hmem
    rw [hnames] at hmem
    have hsplit : (pdfNames files).take N ++ (pdfNames files).drop N = pdfNames files :=
      List.take_append_drop N (pdfNames files)
    have : ((pdfNames files).take N ++ (pdfNames files).drop N).Nodup := by
      rw [hsplit]
      exact hnd'
    exact (List.nodup_append.mp this).2.2 hmem hdrop
  · exact List.pairwise_map.mpr (sortByName_pairwise files)

/-- Witness for C9: cap 2 on five pdf documents processes exactly the two
lexicographically first ones. -/
theorem C9_processing_cap_witness :
    2 < (pdfNames files5).length
    ∧ (files5.map Document.name).Nodup
    ∧ (main env0 files5 true (some 2)).processed.map Prod.fst = (pdfNames files5).take 2
    ∧ ((main env0 files5 true (some 2)).processed).length = 2 :=
  ⟨by decide, by decide,
   (C9_processing_cap env0 files5 true 2 (by decide) (by decide)).1,
   (C9_processing_cap env0 files5 true 2 (by decide) (by decide)).2.1⟩

/-- C10: a Document whose processing fails still counts toward the cap: the
orchestrator counts every dispatched Document regardless of outcome, so even
when the first N documents all fail, the processed listing is the capped pdf
listing and no pdf file beyond position N is processed. -/
theorem C10_failures_count_toward_cap (env : Env) (files : List Document)
    (N : Nat) (hnd : (files.map Document.name).Nodup)
    (_hfail : ∀ pr ∈ (main env files true (some N)).processed, pr.2.errored = true) :
    ((main env files true (some N)).processed).length
      = min N (pdfNames files).length
    ∧ ∀ nm ∈ (pdfNames files).drop N,
        nm ∉ (main env files true (some N)).processed.map Prod.fst := by
  have hnames : (main env files true (some N)).processed.map Prod.fst
      = (pdfNames files).take N := by
    rw [main_processed_names env files true (some N), capTake_some]
  have hnd' : (pdfNames files).Nodup := by
    have hperm : ((sortByName files).map Document.name).Perm (files.map Document.name) :=
      (sortByName_perm files).map Document.name
    exact (hperm.nodup_iff.mpr hnd).filter lowerPdf
  constructor
  · rw [← List.length_map ((main env files true (some N)).processed) Prod.fst, hnames,
      List.length_take]
  · intro nm hdrop hmem
    rw [hnames] at hmem
    have hsplit : (pdfNames files).take N ++ (pdfNames files).drop N = pdfNames files :=
      List.take_append_drop N (pdfNames files)
    have : ((pdfNames files).take N ++ (pdfNames files).drop N).Nodup := by
      rw [hsplit]
      exact hnd'
    exact (List.nodup_append.mp this).2.2 hmem hdrop

/-- Witness for C10: cap 1 with a first document that fails (unreadable): it
is still counted, and the second pdf is not processed. -/
theorem C10_failures_count_toward_cap_witness :
    (∀ pr ∈ (main env0 [badDoc "a0.pdf", okScan "b0.pdf"] true (some 1)).processed,
      pr.2.errored = true)
    ∧ ((main env0 [badDoc "a0.pdf", okScan "b0.pdf"] true (some 1)).processed).length
        = min 1 (pdfNames [badDoc "a0.pdf", okScan "b0.pdf"]).length
    ∧ ∀ nm ∈ (pdfNames [badDoc "a0.pdf", okScan "b0.pdf"]).drop 1,
        nm ∉ (main env0 [badDoc "a0.pdf", okScan "b0.pdf"] true
          (some 1)).processed.map Prod.fst :=
  ⟨by decide,
   (C10_failures_count_toward_cap env0 [badDoc "a0.pdf", okScan "b0.pdf"] 1
     (by decide) (by decide)).1,
   (C10_failures_count_toward_cap env0 [badDoc "a0.pdf", okScan "b0.pdf"] 1
     (by decide) (by decide)).2⟩

end ExtractClassify
